import Mathlib

/-!
Verification of the crawl-and-check pipeline of the CardioThinkLab Image
Health Checker (`src/app.py`) against its natural-language specification.

The Python source is shallowly embedded below.  Pure helpers
(`is_internal_url`, the status-classification mapping, the content-sniffing
and error-categorisation logic of `check_image_status`) become Lean
functions.  External collaborators (the headless browser, `urllib.parse.urljoin`,
`page.request.get`, the wall clock) become oracle parameters: functions the
embedded code consults but does not define.  The stateful orchestrator
`crawl_and_check_images` becomes an explicit fold over a `CrawlState`
carrying the dedup cache, the accumulated result rows, a log of the URLs
actually status-checked, and a clock tick counting `datetime.now()` calls.
-/

/-- Python's substring test `pat in s` restricted to a prefix position:
`charsPrefixOf pat s` is true when `pat` is an initial segment of `s`. -/
def charsPrefixOf : List Char → List Char → Bool
  | [], _ => true
  | _ :: _, [] => false
  | a :: as, b :: bs => a == b && charsPrefixOf as bs

/-- `charsInfixOf pat s` is true when `pat` occurs contiguously in `s`. -/
def charsInfixOf (pat : List Char) : List Char → Bool
  | [] => charsPrefixOf pat []
  | c :: cs => charsPrefixOf pat (c :: cs) || charsInfixOf pat cs

/-- Python's `pat in s` substring containment on strings (`'' in s` is true). -/
def strContains (s pat : String) : Bool :=
  charsInfixOf pat.toList s.toList

/-- Python's `s.startswith(pat)`. -/
def strStarts (s pat : String) : Bool :=
  charsPrefixOf pat.toList s.toList

/-- Python's `s.lower()` (character-wise, which agrees with it on ASCII). -/
def strLower (s : String) : String :=
  String.mk (s.toList.map Char.toLower)

/-- Characters allowed in a URL scheme after the first, as in
`urllib.parse.scheme_chars`. -/
def schemeCharOk (c : Char) : Bool :=
  c.isAlphanum || c == '+' || c == '-' || c == '.'

/-- Split a character list at the first colon, returning the parts before and
after it, or `none` when there is no colon (`url.find(':')` in `urlsplit`). -/
def findColonSplit : List Char → Option (List Char × List Char)
  | [] => none
  | c :: cs =>
    if c = ':' then some ([], cs)
    else
      match findColonSplit cs with
      | some (before, after) => some (c :: before, after)
      | none => none

/-- Strip a leading `scheme:` from a URL as `urllib.parse.urlsplit` does: the
text before the first colon must be nonempty, start with a letter, and consist
of scheme characters; otherwise the URL is left unchanged. -/
def dropScheme (url : List Char) : List Char :=
  match findColonSplit url with
  | some (before, after) =>
    match before with
    | [] => url
    | c :: rest =>
      if c.isAlpha && (rest.all schemeCharOk) then after else url
  | none => url

/-- Take the netloc portion: characters up to the first `/`, `?` or `#`. -/
def takeNetloc : List Char → List Char
  | [] => []
  | c :: cs => if c = '/' || c = '?' || c = '#' then [] else c :: takeNetloc cs

/-- `urlparse(url).netloc`: after stripping the scheme, the host portion is
present exactly when the remainder starts with `//`, and extends to the first
`/`, `?` or `#`; otherwise the netloc is empty. -/
def urlNetloc (url : String) : String :=
  match dropScheme url.toList with
  | '/' :: '/' :: rest => String.mk (takeNetloc rest)
  | _ => ""

/-- `is_internal_url(url, base_domain)` from `src/app.py` (lines 167-170):
`parsed.netloc == '' or base_domain in parsed.netloc`. -/
def is_internal_url (url base_domain : String) : Bool :=
  urlNetloc url == "" || strContains (urlNetloc url) base_domain

/-- Outcome of `page.request.get` for one URL: either an HTTP response with a
numeric status and the (possibly empty, meaning absent) `content-type` header,
or a raised exception carrying an error message. -/
inductive HttpOutcome where
  | response (status : Nat) (contentType : String)
  | failure (message : String)

/-- The content-sniffing branch of `check_image_status` (lines 413-419): a 200
response whose lowercased `content-type` is nonempty and contains neither
`image` nor `octet-stream` is downgraded to 404; every other status passes
through unchanged. -/
def sniffStatus (status : Nat) (contentType : String) : Nat :=
  if status = 200 then
    let ct := strLower contentType
    if ct ≠ "" && !(strContains ct "image") && !(strContains ct "octet-stream") then 404
    else status
  else status

/-- The exception-categorisation branch of `check_image_status` (lines
422-435): the lowercased error text is scanned for `timeout`/`timed out`
(code 0), then for the digit strings `404`, `403`, `500`/`502`/`503`; any
other failure is the generic connection-error sentinel 0. -/
def errorStatus (message : String) : Nat :=
  let e := strLower message
  if strContains e "timeout" || strContains e "timed out" then 0
  else if strContains e "404" then 404
  else if strContains e "403" then 403
  else if strContains e "500" || strContains e "502" || strContains e "503" then 500
  else 0

/-- `check_image_status(page, image_url)` (lines 402-435).  `net` is the
oracle for `page.request.get`; the input is `Option String` so that Python's
`None` is representable (`not image_url` is true for `None` and `''`).  The
second component counts HTTP requests issued during the call (0 or 1). -/
def check_image_status (net : String → HttpOutcome) (image_url : Option String) :
    Nat × Nat :=
  match image_url with
  | none => (0, 0)
  | some u =>
    if u == "" || !(strStarts u "http") then (0, 0)
    else
      match net u with
      | HttpOutcome.response s ct => (sniffStatus s ct, 1)
      | HttpOutcome.failure msg => (errorStatus msg, 1)

/-- The status-to-label mapping of `crawl_and_check_images` (lines 501-510). -/
def statusLabel (status_code : Nat) : String :=
  if status_code = 200 then "✅ OK"
  else if status_code = 404 then "❌ NOT FOUND"
  else if status_code = 403 then "⚠️ FORBIDDEN"
  else if status_code = 0 then "❌ CONNECTION ERROR"
  else "⚠️ ERROR " ++ toString status_code

/-- The `Load More` loop of `get_all_article_links` (lines 297-318), with the
click counter made explicit.  `visible clicks` reports whether, after `clicks`
successful clicks, a visible load-more control is found and clickable (`false`
also models an exception while looking for or clicking it, which breaks the
loop exactly like an absent control).  `fuel` is `max_load_more_clicks -
load_more_clicks`, so the loop condition `load_more_clicks < 20` is `fuel > 0`. -/
def loadMoreLoop (visible : Nat → Bool) : Nat → Nat → Nat
  | 0, clicks => clicks
  | fuel + 1, clicks =>
    if visible clicks then loadMoreLoop visible fuel (clicks + 1) else clicks

/-- Number of load-more clicks performed by `get_all_article_links`, with the
hard cap `max_load_more_clicks = 20` (line 299). -/
def loadMoreClicks (visible : Nat → Bool) : Nat :=
  loadMoreLoop visible 20 0

/-- Membership in the Python set `article_links` built by
`get_all_article_links` (lines 383-388): the internal links among the
candidates the in-page script returned, plus the start URL itself. -/
def inDiscovered (found : List String) (base_url u : String) : Prop :=
  u = base_url ∨ (u ∈ found ∧ is_internal_url u (urlNetloc base_url) = true)

/-- Decidable check that `order` is a legitimate iteration order of the set
`article_links`: no duplicates, and the same members as `inDiscovered`.
Python string-set iteration order is hash-based and unspecified, so the
embedding quantifies over all such orders. -/
def enumeratesDiscovered (order found : List String) (base_url : String) : Bool :=
  decide order.Nodup &&
    order.all (fun u =>
      u == base_url || (decide (u ∈ found) && is_internal_url u (urlNetloc base_url))) &&
    decide (base_url ∈ order) &&
    (found.filter (fun l => is_internal_url l (urlNetloc base_url))).all
      (fun l => decide (l ∈ order))

/-- `get_all_article_links(page, base_url, max_pages)` (lines 285-399), with
the browser interaction abstracted: `found` is the list the in-page extraction
script returned, `order` the iteration order of the resulting Python set, and
`failed` whether any exception escaped the `try` block (in which case the
function returns `[base_url]`, line 399).  On success it returns
`list(article_links)[:max_pages]` (line 395). -/
def get_all_article_links (base_url : String) (max_pages : Nat)
    (order : List String) (failed : Bool) : List String :=
  if failed then [base_url] else order.take max_pages

/-- One result row appended by `crawl_and_check_images` (lines 512-518). -/
structure Row where
  pageUrl : String
  imageUrl : String
  statusCode : Nat
  label : String
  checkedAt : String
deriving DecidableEq

/-- The orchestrator's mutable state: the `checked_images` dict (line 469)
as an association list, the accumulated `results` (line 440), a log of the
URLs for which `check_image_status` was actually invoked, and the number of
`datetime.now()` calls made so far (used to index the clock oracle). -/
structure CrawlState where
  cache : List (String × Nat)
  results : List Row
  checkLog : List String
  tick : Nat
deriving DecidableEq

/-- Lookup in the `checked_images` dict. -/
def lookupStatus (k : String) : List (String × Nat) → Option Nat
  | [] => none
  | (k2, v) :: rest => if k2 = k then some v else lookupStatus k rest

/-- External collaborators and configuration of `crawl_and_check_images`:
`urljoin` is `urllib.parse.urljoin`, `net` the per-URL outcome of
`page.request.get`, `clock` the formatted `datetime.now()` string at the n-th
call, and `include_external` the configuration flag. -/
structure CrawlEnv where
  urljoin : String → String → String
  net : String → HttpOutcome
  clock : Nat → String
  include_external : Bool

/-- Build the result row appended at lines 512-518; the label is recomputed
from the status code at every append, and `Checked At` is the clock reading
at append time. -/
def mkRow (page_url full_img_url : String) (status_code : Nat) (checked_at : String) :
    Row :=
  { pageUrl := page_url, imageUrl := full_img_url, statusCode := status_code,
    label := statusLabel status_code, checkedAt := checked_at }

/-- The body of the inner `for img_url in images` loop (lines 485-518):
resolve to an absolute URL, skip external images when so configured, consult
the cache (checking and filling it on a miss), then append a result row. -/
def processImage (env : CrawlEnv) (base_domain page_url : String)
    (st : CrawlState) (img_url : String) : CrawlState :=
  let full := env.urljoin page_url img_url
  if !env.include_external && !(is_internal_url full base_domain) then st
  else
    match lookupStatus full st.cache with
    | some s =>
      { st with results := st.results ++ [mkRow page_url full s (env.clock st.tick)],
                tick := st.tick + 1 }
    | none =>
      let s := (check_image_status env.net (some full)).1
      { st with cache := (full, s) :: st.cache,
                checkLog := st.checkLog ++ [full],
                results := st.results ++ [mkRow page_url full s (env.clock st.tick)],
                tick := st.tick + 1 }

/-- The body of the outer `for idx, page_url in enumerate(...)` loop (lines
471-522).  `pageData page_url = none` models the `except` branch (line 520): a
navigation or extraction failure for that page, which is caught and leaves the
state untouched; `some imgs` is the image list `extract_images_from_page`
produced. -/
def processPage (env : CrawlEnv) (base_domain : String)
    (pageData : String → Option (List String)) (st : CrawlState)
    (page_url : String) : CrawlState :=
  match pageData page_url with
  | none => st
  | some imgs => imgs.foldl (processImage env base_domain page_url) st

/-- The empty `CrawlState` at the start of a run. -/
def initState : CrawlState :=
  { cache := [], results := [], checkLog := [], tick := 0 }

/-- `crawl_and_check_images(base_url, max_pages, include_external)` (lines
438-527) after discovery: `article_links` is what `get_all_article_links`
returned, replaced by `[base_url]` when empty (lines 459-461), truncated to
`max_pages` (line 471) and folded over page by page. -/
def crawl_and_check_images (env : CrawlEnv)
    (pageData : String → Option (List String)) (article_links : List String)
    (base_url : String) (max_pages : Nat) : CrawlState :=
  let base_domain := urlNetloc base_url
  let links := if article_links = [] then [base_url] else article_links
  (links.take max_pages).foldl (processPage env base_domain pageData) initState

/-- Invariant: every accumulated result row agrees with the cache entry for
its image URL, and its label is the one computed from its status code. -/
def RowsOk (st : CrawlState) : Prop :=
  ∀ r ∈ st.results, lookupStatus r.imageUrl st.cache = some r.statusCode ∧
    r.label = statusLabel r.statusCode

/-- Invariant: the check log has no duplicates and every logged URL has a
cache entry. -/
def LogOk (st : CrawlState) : Prop :=
  st.checkLog.Nodup ∧ ∀ u ∈ st.checkLog, (lookupStatus u st.cache).isSome = true

/-- Invariant: when externals are excluded, no external URL has a result row,
a cache entry, or a check-log entry. -/
def ExtOk (base_domain : String) (ext : Bool) (st : CrawlState) : Prop :=
  ext = false → ∀ u, is_internal_url u base_domain = false →
    (∀ r ∈ st.results, r.imageUrl ≠ u) ∧ lookupStatus u st.cache = none ∧
    u ∉ st.checkLog

/-- The combined orchestrator invariant. -/
def CrawlInv (base_domain : String) (ext : Bool) (st : CrawlState) : Prop :=
  RowsOk st ∧ LogOk st ∧ ExtOk base_domain ext st

theorem lookupStatus_cons_ne (k k2 : String) (v2 : Nat) (c : List (String × Nat))
    (h : k2 ≠ k) : lookupStatus k ((k2, v2) :: c) = lookupStatus k c := by
  simp [lookupStatus, h]

theorem lookupStatus_cons_self (k : String) (v : Nat) (c : List (String × Nat)) :
    lookupStatus k ((k, v) :: c) = some v := by
  simp [lookupStatus]

theorem lookupStatus_mono_insert (k : String) (v : Nat) (k2 : String) (v2 : Nat)
    (c : List (String × Nat)) (hnew : lookupStatus k2 c = none)
    (h : lookupStatus k c = some v) :
    lookupStatus k ((k2, v2) :: c) = some v := by
  have hne : k2 ≠ k := by
    intro he
    subst he
    rw [hnew] at h
    cases h
  rw [lookupStatus_cons_ne _ _ _ _ hne]
  exact h

theorem foldl_pred {α : Type} (P : CrawlState → Prop) (f : CrawlState → α → CrawlState)
    (hf : ∀ st a, P st → P (f st a)) :
    ∀ (l : List α) (st : CrawlState), P st → P (l.foldl f st)
  | [], _, h => h
  | a :: l, st, h => foldl_pred P f hf l (f st a) (hf st a h)

theorem processImage_inv (env : CrawlEnv) (bd p : String) (st : CrawlState) (i : String)
    (h : CrawlInv bd env.include_external st) :
    CrawlInv bd env.include_external (processImage env bd p st i) := by
  obtain ⟨hrows, ⟨hnd, hlog⟩, hext⟩ := h
  simp only [processImage]
  split
  · exact ⟨hrows, ⟨hnd, hlog⟩, hext⟩
  case isFalse hskip =>
    have hfull : env.include_external = false →
        is_internal_url (env.urljoin p i) bd = true := by
      intro hf
      rw [hf] at hskip
      simpa using hskip
    split
    case h_1 s heq =>
      refine ⟨?_, ⟨hnd, hlog⟩, ?_⟩
      · intro r hr
        rcases List.mem_append.mp hr with hr | hr
        · exact hrows r hr
        · rcases List.mem_singleton.mp hr with rfl
          exact ⟨heq, rfl⟩
      · intro hf u hu
        obtain ⟨hr, hc, hl⟩ := hext hf u hu
        refine ⟨?_, hc, hl⟩
        intro r hmem
        rcases List.mem_append.mp hmem with hm | hm
        · exact hr r hm
        · rcases List.mem_singleton.mp hm with rfl
          intro he
          have h2 : env.urljoin p i = u := by simpa [mkRow] using he
          rw [h2] at hfull
          rw [hfull hf] at hu
          simp at hu
    case h_2 heq =>
      have hnotin : env.urljoin p i ∉ st.checkLog := by
        intro hmem
        have := hlog _ hmem
        rw [heq] at this
        cases this
      refine ⟨?_, ⟨?_, ?_⟩, ?_⟩
      · intro r hr
        rcases List.mem_append.mp hr with hr | hr
        · obtain ⟨hc, hl⟩ := hrows r hr
          exact ⟨lookupStatus_mono_insert _ _ _ _ _ heq hc, hl⟩
        · rcases List.mem_singleton.mp hr with rfl
          exact ⟨lookupStatus_cons_self _ _ _, rfl⟩
      · exact List.Nodup.append hnd (List.nodup_singleton _)
          (by simpa [List.disjoint_singleton] using hnotin)
      · intro u hu
        rcases List.mem_append.mp hu with hu | hu
        · obtain ⟨v, hv⟩ := Option.isSome_iff_exists.mp (hlog u hu)
          rw [lookupStatus_mono_insert _ _ _ _ _ heq hv]
          rfl
        · rcases List.mem_singleton.mp hu with rfl
          rw [lookupStatus_cons_self]
          rfl
      · intro hf u hu
        obtain ⟨hr, hc, hl⟩ := hext hf u hu
        have hne : env.urljoin p i ≠ u := by
          intro he
          rw [he] at hfull
          rw [hfull hf] at hu
          simp at hu
        refine ⟨?_, ?_, ?_⟩
        · intro r hmem
          rcases List.mem_append.mp hmem with hm | hm
          · exact hr r hm
          · rcases List.mem_singleton.mp hm with rfl
            simpa [mkRow] using hne
        · rw [lookupStatus_cons_ne _ _ _ _ hne]
          exact hc
        · intro hmem
          rcases List.mem_append.mp hmem with hm | hm
          · exact hl hm
          · exact hne (List.mem_singleton.mp hm).symm

theorem processPage_inv (env : CrawlEnv) (bd : String)
    (pageData : String → Option (List String)) (st : CrawlState) (page_url : String)
    (h : CrawlInv bd env.include_external st) :
    CrawlInv bd env.include_external (processPage env bd pageData st page_url) := by
  unfold processPage
  split
  · exact h
  · exact foldl_pred _ _ (fun st2 a h2 => processImage_inv env bd page_url st2 a h2) _ st h

theorem initState_inv (bd : String) (ext : Bool) : CrawlInv bd ext initState := by
  refine ⟨?_, ⟨List.nodup_nil, ?_⟩, ?_⟩
  · intro r hr
    cases hr
  · intro u hu
    cases hu
  · intro _ u _
    exact ⟨fun r hr => absurd hr (List.not_mem_nil r), rfl, List.not_mem_nil u⟩

theorem crawl_inv (env : CrawlEnv) (pageData : String → Option (List String))
    (article_links : List String) (base_url : String) (max_pages : Nat) :
    CrawlInv (urlNetloc base_url) env.include_external
      (crawl_and_check_images env pageData article_links base_url max_pages) := by
  unfold crawl_and_check_images
  exact foldl_pred _ _
    (fun st p h => processPage_inv env (urlNetloc base_url) pageData st p h) _ _
    (initState_inv _ _)

theorem processImage_results_extend (env : CrawlEnv) (bd p : String)
    (st : CrawlState) (i : String) :
    ∃ tail, (processImage env bd p st i).results = st.results ++ tail := by
  simp only [processImage]
  split
  · exact ⟨[], (List.append_nil _).symm⟩
  · split
    · exact ⟨_, rfl⟩
    · exact ⟨_, rfl⟩

theorem foldl_results_extend {α : Type} (f : CrawlState → α → CrawlState)
    (hf : ∀ st a, ∃ tail, (f st a).results = st.results ++ tail) (l : List α) :
    ∀ st : CrawlState, ∃ tail, (l.foldl f st).results = st.results ++ tail := by
  induction l with
  | nil => exact fun st => ⟨[], (List.append_nil _).symm⟩
  | cons a l ih =>
    intro st
    obtain ⟨t1, h1⟩ := hf st a
    obtain ⟨t2, h2⟩ := ih (f st a)
    exact ⟨t1 ++ t2, by rw [List.foldl_cons, h2, h1, List.append_assoc]⟩

theorem processPage_results_extend (env : CrawlEnv) (bd : String)
    (pageData : String → Option (List String)) (st : CrawlState) (page_url : String) :
    ∃ tail, (processPage env bd pageData st page_url).results = st.results ++ tail := by
  unfold processPage
  split
  · exact ⟨[], (List.append_nil _).symm⟩
  · exact foldl_results_extend _ (fun st2 a => processImage_results_extend env bd page_url st2 a) _ st

theorem loadMoreLoop_le (visible : Nat → Bool) (fuel : Nat) :
    ∀ clicks : Nat, loadMoreLoop visible fuel clicks ≤ fuel + clicks := by
  induction fuel with
  | zero => intro clicks; simp [loadMoreLoop]
  | succ n ih =>
    intro clicks
    simp only [loadMoreLoop]
    split
    · exact le_trans (ih (clicks + 1)) (by omega)
    · omega

theorem loadMoreLoop_true (fuel : Nat) :
    ∀ clicks : Nat, loadMoreLoop (fun _ => true) fuel clicks = clicks + fuel := by
  induction fuel with
  | zero => intro clicks; simp [loadMoreLoop]
  | succ n ih =>
    intro clicks
    have hstep : loadMoreLoop (fun _ => true) (n + 1) clicks
        = loadMoreLoop (fun _ => true) n (clicks + 1) := by
      simp [loadMoreLoop]
    rw [hstep, ih (clicks + 1)]
    omega

/-- C6: `is_internal_url` classifies a URL as internal exactly when the URL
has no host component or its host contains the base domain as a substring;
the match is substring containment (a host merely embedding the base domain
is internal), not exact-host or suffix match. -/
theorem c6_internal_classifier (url base_domain : String) :
    (is_internal_url url base_domain = true ↔
      (urlNetloc url = "" ∨ strContains (urlNetloc url) base_domain = true)) ∧
    is_internal_url "https://cdn.a.com.evil.net/x" "a.com" = true ∧
    is_internal_url "https://a.com/x" "a.com" = true ∧
    is_internal_url "https://evil.com/x.png" "a.com" = false := by
  refine ⟨?_, by decide, by decide, by decide⟩
  simp [is_internal_url]

/-- Witness for `c6_internal_classifier`: a host-less relative URL is
classified internal. -/
theorem c6_internal_classifier_witness :
    is_internal_url "/img/a.png" "a.com" = true :=
  (c6_internal_classifier "/img/a.png" "a.com").1.mpr (Or.inl (by decide))

/-- C7: the load-more phase performs at most 20 clicks, performs zero clicks
and stops at once when no visible control is found on the first check, and
still terminates (at exactly the cap) when the control never disappears. -/
theorem c7_load_more_bounds (visible : Nat → Bool) :
    loadMoreClicks visible ≤ 20 ∧
    (visible 0 = false → loadMoreClicks visible = 0) ∧
    loadMoreClicks (fun _ => true) = 20 := by
  refine ⟨?_, ?_, ?_⟩
  · simpa using loadMoreLoop_le visible 20 0
  · intro h
    have hstep : loadMoreClicks visible = loadMoreLoop visible (19 + 1) 0 := rfl
    rw [hstep]
    simp only [loadMoreLoop]
    rw [h]
    simp
  · have hstep : loadMoreClicks (fun _ => true) = loadMoreLoop (fun _ => true) 20 0 := rfl
    rw [hstep, loadMoreLoop_true 20 0]

/-- Witness for `c7_load_more_bounds`: with no control visible at the first
check, zero clicks are performed. -/
theorem c7_load_more_bounds_witness :
    (fun _ : Nat => false) 0 = false ∧ loadMoreClicks (fun _ : Nat => false) = 0 :=
  ⟨rfl, (c7_load_more_bounds (fun _ => false)).2.1 rfl⟩

/-- C10: `check_image_status` is total and issues at most one HTTP request;
for a `None`, empty, or non-`http`-prefixed URL it returns the sentinel 0
without issuing any request (request count 0). -/
theorem c10_check_total (net : String → HttpOutcome) (iu : Option String) :
    (check_image_status net iu).2 ≤ 1 ∧
    (iu = none → check_image_status net iu = (0, 0)) ∧
    (∀ u, iu = some u → strStarts u "http" = false →
      check_image_status net iu = (0, 0)) := by
  refine ⟨?_, ?_, ?_⟩
  · cases iu with
    | none => simp [check_image_status]
    | some u =>
      simp only [check_image_status]
      split
      · simp
      · cases net u <;> simp
  · rintro rfl
    rfl
  · rintro u rfl h
    simp [check_image_status, h]

/-- Witness for `c10_check_total`: the empty URL yields 0 with no request. -/
theorem c10_check_total_witness :
    strStarts "" "http" = false ∧
    check_image_status (fun _ => HttpOutcome.response 200 "image/png") (some "") = (0, 0) :=
  ⟨by decide,
    (c10_check_total (fun _ => HttpOutcome.response 200 "image/png") (some "")).2.2 ""
      rfl (by decide)⟩

/-- C2 counterexample: a 200 response whose content-type
`application/octet-stream` does not indicate an image is NOT downgraded to
404 — it keeps status 200 and is labelled OK, refuting the claim that every
non-image content-type is reported NOT_FOUND. -/
theorem c2_counterexample :
    strContains (strLower "application/octet-stream") "image" = false ∧
    (check_image_status (fun _ => HttpOutcome.response 200 "application/octet-stream")
        (some "http://a.com/i.png")).1 = 200 ∧
    statusLabel 200 ≠ "❌ NOT FOUND" := by
  refine ⟨by decide, by decide, by decide⟩

/-- C2 amended: a 200 response is downgraded to 404 exactly when the
lowercased content-type is nonempty and contains neither `image` nor
`octet-stream`; an empty (absent) content-type or one containing
`octet-stream` (binary payload) keeps status 200. -/
theorem c2_content_sniffing (net : String → HttpOutcome) (u ct : String)
    (hne : (u == "") = false) (hu : strStarts u "http" = true)
    (hnet : net u = HttpOutcome.response 200 ct) :
    (strLower ct ≠ "" → strContains (strLower ct) "image" = false →
      strContains (strLower ct) "octet-stream" = false →
      (check_image_status net (some u)).1 = 404) ∧
    ((strLower ct = "" ∨ strContains (strLower ct) "image" = true ∨
      strContains (strLower ct) "octet-stream" = true) →
      (check_image_status net (some u)).1 = 200) := by
  have hg : (check_image_status net (some u)).1 = sniffStatus 200 ct := by
    simp [check_image_status, hne, hu, hnet]
  constructor
  · intro h1 h2 h3
    rw [hg]
    simp [sniffStatus, h1, h2, h3]
  · intro h
    rw [hg]
    rcases h with h | h | h <;> simp [sniffStatus, h]

/-- Witness for `c2_content_sniffing`: a 200 HTML response is reported 404. -/
theorem c2_content_sniffing_witness :
    (check_image_status (fun _ => HttpOutcome.response 200 "text/html")
        (some "http://a.com/i.png")).1 = 404 :=
  (c2_content_sniffing (fun _ => HttpOutcome.response 200 "text/html")
      "http://a.com/i.png" "text/html" (by decide) (by decide) rfl).1
    (by decide) (by decide) (by decide)

/-- C3 counterexample: a transport failure whose error text contains the
digits `404` is recorded as status 404 / NOT FOUND, not as the synthetic
sentinel 0 / CONNECTION ERROR, refuting the claim that every transport
failure is recorded as 0. -/
theorem c3_counterexample :
    strContains (strLower "connection refused by gateway 404") "timeout" = false ∧
    strContains (strLower "connection refused by gateway 404") "timed out" = false ∧
    (check_image_status (fun _ => HttpOutcome.failure "connection refused by gateway 404")
        (some "http://a.com/i.png")).1 = 404 ∧
    statusLabel 404 ≠ "❌ CONNECTION ERROR" := by
  refine ⟨by decide, by decide, by decide, by decide⟩

/-- C3 amended: a failed request issues exactly one attempt (no retry).  A
timeout is recorded as 0 / CONNECTION ERROR.  Any other transport failure is
categorised by scanning its lowercased error text in order: text containing
`404` is recorded as 404; otherwise text containing `403` as 403; otherwise
text containing `500`, `502` or `503` as 500 (NOT the corresponding 502/503);
otherwise the sentinel 0 / CONNECTION ERROR. -/
theorem c3_failure_mapping (net : String → HttpOutcome) (u msg : String)
    (hne : (u == "") = false) (hu : strStarts u "http" = true)
    (hnet : net u = HttpOutcome.failure msg) :
    (check_image_status net (some u)).2 = 1 ∧
    ((strContains (strLower msg) "timeout" = true ∨
      strContains (strLower msg) "timed out" = true) →
      (check_image_status net (some u)).1 = 0 ∧
      statusLabel (check_image_status net (some u)).1 = "❌ CONNECTION ERROR") ∧
    (strContains (strLower msg) "timeout" = false →
     strContains (strLower msg) "timed out" = false →
      (strContains (strLower msg) "404" = true →
        (check_image_status net (some u)).1 = 404) ∧
      (strContains (strLower msg) "404" = false →
       strContains (strLower msg) "403" = true →
        (check_image_status net (some u)).1 = 403) ∧
      (strContains (strLower msg) "404" = false →
       strContains (strLower msg) "403" = false →
       (strContains (strLower msg) "500" = true ∨
        strContains (strLower msg) "502" = true ∨
        strContains (strLower msg) "503" = true) →
        (check_image_status net (some u)).1 = 500) ∧
      (strContains (strLower msg) "404" = false →
       strContains (strLower msg) "403" = false →
       strContains (strLower msg) "500" = false →
       strContains (strLower msg) "502" = false →
       strContains (strLower msg) "503" = false →
        (check_image_status net (some u)).1 = 0 ∧
        statusLabel (check_image_status net (some u)).1 = "❌ CONNECTION ERROR")) := by
  have hg : check_image_status net (some u) = (errorStatus msg, 1) := by
    simp [check_image_status, hne, hu, hnet]
  refine ⟨by rw [hg], ?_, ?_⟩
  · intro h
    have h0 : errorStatus msg = 0 := by
      rcases h with h | h <;> simp [errorStatus, h]
    rw [hg]
    simp [h0, statusLabel]
  · intro h1 h2
    refine ⟨?_, ?_, ?_, ?_⟩
    · intro h404
      rw [hg]
      simp [errorStatus, h1, h2, h404]
    · intro h404 h403
      rw [hg]
      simp [errorStatus, h1, h2, h404, h403]
    · intro h404 h403 h5xx
      rw [hg]
      rcases h5xx with h | h | h <;> simp [errorStatus, h1, h2, h404, h403, h]
    · intro h404 h403 h500 h502 h503
      have h0 : errorStatus msg = 0 := by
        simp [errorStatus, h1, h2, h404, h403, h500, h502, h503]
      rw [hg]
      simp [h0, statusLabel]

/-- Witness for `c3_failure_mapping`: a plain connection-reset failure is
recorded as 0 / CONNECTION ERROR after exactly one attempt, and a failure
whose text contains `502` is recorded as 500, not 502. -/
theorem c3_failure_mapping_witness :
    (check_image_status (fun _ => HttpOutcome.failure "connection reset by peer")
        (some "http://a.com/i.png")).2 = 1 ∧
    (check_image_status (fun _ => HttpOutcome.failure "connection reset by peer")
        (some "http://a.com/i.png")).1 = 0 ∧
    statusLabel (check_image_status (fun _ => HttpOutcome.failure "connection reset by peer")
        (some "http://a.com/i.png")).1 = "❌ CONNECTION ERROR" ∧
    (check_image_status (fun _ => HttpOutcome.failure "bad gateway 502")
        (some "http://a.com/i.png")).1 = 500 := by
  have h := c3_failure_mapping (fun _ => HttpOutcome.failure "connection reset by peer")
    "http://a.com/i.png" "connection reset by peer" (by decide) (by decide) rfl
  have h2 := c3_failure_mapping (fun _ => HttpOutcome.failure "bad gateway 502")
    "http://a.com/i.png" "bad gateway 502" (by decide) (by decide) rfl
  exact ⟨h.1,
    ((h.2.2 (by decide) (by decide)).2.2.2 (by decide) (by decide) (by decide) (by decide)
      (by decide)).1,
    ((h.2.2 (by decide) (by decide)).2.2.2 (by decide) (by decide) (by decide) (by decide)
      (by decide)).2,
    (h2.2.2 (by decide) (by decide)).2.2.1 (by decide) (by decide) (Or.inr (Or.inl (by decide)))⟩

/-- C1 counterexample: in a run where the same image URL appears on two
pages, the two result rows agree on status code and label but carry
DIFFERENT `Checked At` timestamps — the timestamp is recomputed at each row
append, not reused from a cached `CheckResult` — refuting the claim that
every occurrence carries the same checked-at timestamp. -/
theorem c1_counterexample :
    ((crawl_and_check_images
        { urljoin := fun _ i => i, net := fun _ => HttpOutcome.response 200 "image/png",
          clock := fun n => toString n, include_external := true }
        (fun _ => some ["http://a.com/i.png"]) ["http://s/1", "http://s/2"]
        "http://s" 2).results.map (fun r => (r.imageUrl, r.checkedAt)) =
      [("http://a.com/i.png", "0"), ("http://a.com/i.png", "1")]) ∧
    ("0" : String) ≠ "1" := by
  refine ⟨by decide, by decide⟩

/-- C1 amended: every image URL is status-checked at most once per run, and
all result rows for the same image URL carry the same status code and the
same classification label; the checked-at timestamp, however, is recomputed
at each row append and may differ between occurrences. -/
theorem c1_cache_consistency (env : CrawlEnv) (pageData : String → Option (List String))
    (article_links : List String) (base_url : String) (max_pages : Nat) :
    (∀ u, (crawl_and_check_images env pageData article_links base_url
        max_pages).checkLog.count u ≤ 1) ∧
    (∀ r1 ∈ (crawl_and_check_images env pageData article_links base_url max_pages).results,
     ∀ r2 ∈ (crawl_and_check_images env pageData article_links base_url max_pages).results,
      r1.imageUrl = r2.imageUrl → r1.statusCode = r2.statusCode ∧ r1.label = r2.label) := by
  obtain ⟨hrows, ⟨hnd, hlog⟩, hext⟩ := crawl_inv env pageData article_links base_url max_pages
  constructor
  · intro u
    exact List.nodup_iff_count_le_one.mp hnd u
  · intro r1 h1 r2 h2 he
    obtain ⟨hc1, hl1⟩ := hrows r1 h1
    obtain ⟨hc2, hl2⟩ := hrows r2 h2
    rw [he] at hc1
    rw [hc1] at hc2
    have hs : r1.statusCode = r2.statusCode := Option.some.inj hc2
    exact ⟨hs, by rw [hl1, hl2, hs]⟩

/-- Witness for `c1_cache_consistency`: two rows for the same image URL on
two pages share status code and label, and the URL was checked once. -/
theorem c1_cache_consistency_witness :
    mkRow "http://s/1" "http://a.com/i.png" 200 "0" ∈ (crawl_and_check_images
      { urljoin := fun _ i => i, net := fun _ => HttpOutcome.response 200 "image/png",
        clock := fun n => toString n, include_external := true }
      (fun _ => some ["http://a.com/i.png"]) ["http://s/1", "http://s/2"]
      "http://s" 2).results ∧
    mkRow "http://s/2" "http://a.com/i.png" 200 "1" ∈ (crawl_and_check_images
      { urljoin := fun _ i => i, net := fun _ => HttpOutcome.response 200 "image/png",
        clock := fun n => toString n, include_external := true }
      (fun _ => some ["http://a.com/i.png"]) ["http://s/1", "http://s/2"]
      "http://s" 2).results ∧
    ((mkRow "http://s/1" "http://a.com/i.png" 200 "0").statusCode =
        (mkRow "http://s/2" "http://a.com/i.png" 200 "1").statusCode ∧
      (mkRow "http://s/1" "http://a.com/i.png" 200 "0").label =
        (mkRow "http://s/2" "http://a.com/i.png" 200 "1").label) ∧
    (crawl_and_check_images
      { urljoin := fun _ i => i, net := fun _ => HttpOutcome.response 200 "image/png",
        clock := fun n => toString n, include_external := true }
      (fun _ => some ["http://a.com/i.png"]) ["http://s/1", "http://s/2"]
      "http://s" 2).checkLog.count "http://a.com/i.png" ≤ 1 := by
  refine ⟨by decide, by decide, ?_, ?_⟩
  · exact (c1_cache_consistency
      { urljoin := fun _ i => i, net := fun _ => HttpOutcome.response 200 "image/png",
        clock := fun n => toString n, include_external := true }
      (fun _ => some ["http://a.com/i.png"]) ["http://s/1", "http://s/2"]
      "http://s" 2).2 _ (by decide) _ (by decide) rfl
  · exact (c1_cache_consistency
      { urljoin := fun _ i => i, net := fun _ => HttpOutcome.response 200 "image/png",
        clock := fun n => toString n, include_external := true }
      (fun _ => some ["http://a.com/i.png"]) ["http://s/1", "http://s/2"]
      "http://s" 2).1 _

/-- C5: every result row's classification label is computed from its status
code by the mapping 200 to OK, 404 to NOT FOUND, 403 to FORBIDDEN, 0 to
CONNECTION ERROR, and any other code to ERROR(code). -/
theorem c5_status_mapping (env : CrawlEnv) (pageData : String → Option (List String))
    (article_links : List String) (base_url : String) (max_pages : Nat) :
    (∀ r ∈ (crawl_and_check_images env pageData article_links base_url max_pages).results,
      r.label = statusLabel r.statusCode) ∧
    statusLabel 200 = "✅ OK" ∧ statusLabel 404 = "❌ NOT FOUND" ∧
    statusLabel 403 = "⚠️ FORBIDDEN" ∧ statusLabel 0 = "❌ CONNECTION ERROR" ∧
    (∀ c : Nat, c ≠ 200 → c ≠ 404 → c ≠ 403 → c ≠ 0 →
      statusLabel c = "⚠️ ERROR " ++ toString c) := by
  refine ⟨?_, by decide, by decide, by decide, by decide, ?_⟩
  · intro r hr
    exact ((crawl_inv env pageData article_links base_url max_pages).1 r hr).2
  · intro c h1 h2 h3 h4
    simp [statusLabel, h1, h2, h3, h4]

/-- Witness for `c5_status_mapping`: a concrete row's label matches the
mapping, and an unlisted code gets the ERROR(code) label. -/
theorem c5_status_mapping_witness :
    mkRow "http://s/1" "http://a.com/i.png" 200 "0" ∈ (crawl_and_check_images
      { urljoin := fun _ i => i, net := fun _ => HttpOutcome.response 200 "image/png",
        clock := fun n => toString n, include_external := true }
      (fun _ => some ["http://a.com/i.png"]) ["http://s/1", "http://s/2"]
      "http://s" 2).results ∧
    (mkRow "http://s/1" "http://a.com/i.png" 200 "0").label =
      statusLabel (mkRow "http://s/1" "http://a.com/i.png" 200 "0").statusCode ∧
    statusLabel 500 = "⚠️ ERROR " ++ toString 500 := by
  refine ⟨by decide, ?_, ?_⟩
  · exact (c5_status_mapping
      { urljoin := fun _ i => i, net := fun _ => HttpOutcome.response 200 "image/png",
        clock := fun n => toString n, include_external := true }
      (fun _ => some ["http://a.com/i.png"]) ["http://s/1", "http://s/2"]
      "http://s" 2).1 _ (by decide)
  · exact (c5_status_mapping
      { urljoin := fun _ i => i, net := fun _ => HttpOutcome.response 200 "image/png",
        clock := fun n => toString n, include_external := true }
      (fun _ => some ["http://a.com/i.png"]) ["http://s/1", "http://s/2"]
      "http://s" 2).2.2.2.2.2 500 (by decide) (by decide) (by decide) (by decide)

/-- C8: when externals are excluded, an external image URL is never
status-checked, never cached, and produces no result row. -/
theorem c8_external_skipped (env : CrawlEnv) (pageData : String → Option (List String))
    (article_links : List String) (base_url : String) (max_pages : Nat)
    (hext : env.include_external = false) (u : String)
    (hu : is_internal_url u (urlNetloc base_url) = false) :
    (∀ r ∈ (crawl_and_check_images env pageData article_links base_url max_pages).results,
      r.imageUrl ≠ u) ∧
    lookupStatus u (crawl_and_check_images env pageData article_links base_url
      max_pages).cache = none ∧
    u ∉ (crawl_and_check_images env pageData article_links base_url max_pages).checkLog :=
  (crawl_inv env pageData article_links base_url max_pages).2.2 hext u hu

/-- Witness for `c8_external_skipped`: with externals excluded, an external
image found on the homepage leaves no cache entry and no check-log entry. -/
theorem c8_external_skipped_witness :
    ({ urljoin := fun _ i => i, net := fun _ => HttpOutcome.response 200 "image/png",
       clock := fun n => toString n, include_external := false } : CrawlEnv).include_external
      = false ∧
    is_internal_url "http://evil.com/x.png" (urlNetloc "http://a.com") = false ∧
    lookupStatus "http://evil.com/x.png" (crawl_and_check_images
      { urljoin := fun _ i => i, net := fun _ => HttpOutcome.response 200 "image/png",
        clock := fun n => toString n, include_external := false }
      (fun _ => some ["http://evil.com/x.png"]) ["http://a.com"] "http://a.com" 1).cache
      = none ∧
    "http://evil.com/x.png" ∉ (crawl_and_check_images
      { urljoin := fun _ i => i, net := fun _ => HttpOutcome.response 200 "image/png",
        clock := fun n => toString n, include_external := false }
      (fun _ => some ["http://evil.com/x.png"]) ["http://a.com"] "http://a.com" 1).checkLog := by
  refine ⟨rfl, by decide, ?_, ?_⟩
  · exact (c8_external_skipped
      { urljoin := fun _ i => i, net := fun _ => HttpOutcome.response 200 "image/png",
        clock := fun n => toString n, include_external := false }
      (fun _ => some ["http://evil.com/x.png"]) ["http://a.com"] "http://a.com" 1
      rfl "http://evil.com/x.png" (by decide)).2.1
  · exact (c8_external_skipped
      { urljoin := fun _ i => i, net := fun _ => HttpOutcome.response 200 "image/png",
        clock := fun n => toString n, include_external := false }
      (fun _ => some ["http://evil.com/x.png"]) ["http://a.com"] "http://a.com" 1
      rfl "http://evil.com/x.png" (by decide)).2.2

/-- C9: a per-page navigation/extraction failure leaves the state unchanged,
the page loop proceeds to the remaining pages, and the rows accumulated
before the failure persist as a prefix of the final results. -/
theorem c9_page_failure_isolated (env : CrawlEnv) (bd : String)
    (pageData : String → Option (List String)) (st : CrawlState)
    (page_url : String) (post : List String) (hfail : pageData page_url = none) :
    processPage env bd pageData st page_url = st ∧
    List.foldl (processPage env bd pageData) st (page_url :: post) =
      List.foldl (processPage env bd pageData) st post ∧
    (∃ tail, (List.foldl (processPage env bd pageData) st post).results
      = st.results ++ tail) := by
  have hid : processPage env bd pageData st page_url = st := by
    unfold processPage
    rw [hfail]
  refine ⟨hid, ?_, ?_⟩
  · rw [List.foldl_cons, hid]
  · exact foldl_results_extend _
      (fun st2 p => processPage_results_extend env bd pageData st2 p) post st

/-- Witness for `c9_page_failure_isolated`: a failing page leaves the
initial state untouched. -/
theorem c9_page_failure_isolated_witness :
    (fun _ : String => (none : Option (List String))) "http://s/1" = none ∧
    processPage
      { urljoin := fun _ i => i, net := fun _ => HttpOutcome.response 200 "image/png",
        clock := fun n => toString n, include_external := true }
      "a.com" (fun _ => none) initState "http://s/1" = initState :=
  ⟨rfl, (c9_page_failure_isolated
    { urljoin := fun _ i => i, net := fun _ => HttpOutcome.response 200 "image/png",
      clock := fun n => toString n, include_external := true }
    "a.com" (fun _ => none) initState "http://s/1" [] rfl).1⟩

/-- C4 counterexample: with one internal link found and a page cap of 1, a
legitimate set-iteration order that lists the link before the start URL makes
`list(article_links)[:max_pages]` drop the start URL, refuting the claim that
the discovery result always contains it when more candidates than the cap
exist. -/
theorem c4_counterexample :
    enumeratesDiscovered ["http://a.com/x", "http://a.com"] ["http://a.com/x"]
      "http://a.com" = true ∧
    get_all_article_links "http://a.com" 1 ["http://a.com/x", "http://a.com"] false =
      ["http://a.com/x"] ∧
    "http://a.com" ∉ get_all_article_links "http://a.com" 1
      ["http://a.com/x", "http://a.com"] false := by
  refine ⟨by decide, by decide, by decide⟩

/-- C4 amended: for any legitimate iteration order of the discovered set and
a page cap of at least 1, discovery returns at most `max_pages` URLs and is
never empty; it returns exactly the start URL on failure, and contains the
start URL whenever the discovered set fits within the cap — but under
truncation the start URL may be dropped, since the set order is unspecified. -/
theorem c4_discovery_bounds (base_url : String) (max_pages : Nat)
    (found order : List String) (failed : Bool) (hm : 1 ≤ max_pages)
    (henum : enumeratesDiscovered order found base_url = true) :
    (get_all_article_links base_url max_pages order failed).length ≤ max_pages ∧
    get_all_article_links base_url max_pages order failed ≠ [] ∧
    (failed = true → get_all_article_links base_url max_pages order failed = [base_url]) ∧
    (order.length ≤ max_pages →
      base_url ∈ get_all_article_links base_url max_pages order failed) := by
  have hmem : base_url ∈ order := by
    simp only [enumeratesDiscovered, Bool.and_eq_true, decide_eq_true_eq] at henum
    exact henum.1.2
  cases failed with
  | true =>
    refine ⟨?_, ?_, ?_, ?_⟩
    · simpa [get_all_article_links] using hm
    · simp [get_all_article_links]
    · intro _
      simp [get_all_article_links]
    · intro _
      simp [get_all_article_links]
  | false =>
    have hpos : 0 < order.length := List.length_pos.mpr (by
      intro h
      rw [h] at hmem
      cases hmem)
    refine ⟨?_, ?_, ?_, ?_⟩
    · simp [get_all_article_links]
    · apply List.ne_nil_of_length_pos
      simp only [get_all_article_links, if_neg Bool.false_ne_true, List.length_take]
      omega
    · intro h
      cases h
    · intro hlen
      simp only [get_all_article_links, if_neg Bool.false_ne_true]
      rw [List.take_of_length_le hlen]
      exact hmem

/-- Witness for `c4_discovery_bounds`: with a cap of 5 and two discovered
URLs, the result is nonempty and contains the start URL. -/
theorem c4_discovery_bounds_witness :
    (1 : Nat) ≤ 5 ∧
    enumeratesDiscovered ["http://a.com", "http://a.com/x"] ["http://a.com/x"]
      "http://a.com" = true ∧
    get_all_article_links "http://a.com" 5 ["http://a.com", "http://a.com/x"] false ≠ [] ∧
    "http://a.com" ∈ get_all_article_links "http://a.com" 5
      ["http://a.com", "http://a.com/x"] false := by
  have h := c4_discovery_bounds "http://a.com" 5 ["http://a.com/x"]
    ["http://a.com", "http://a.com/x"] false (by decide) (by decide)
  exact ⟨by decide, by decide, h.2.1, h.2.2.2 (by decide)⟩
